import Mathlib

/-!
Verification of the OpenLibrary client wrapper (`src/client/OpenLibraryClient.ts`
and `src/types/index.ts`).

The client is shallowly embedded: each request-issuing method is modelled as a
pure function from its inputs to either a validation-error message
(`Except.error`, thrown before any network call in the source) or the request
path it would GET (`Except.ok`).  `searchBooks` is modelled by the ordered list
of key/value pairs it appends to its `URLSearchParams` accumulator; the pure
cover-URL formatters are modelled directly as string functions.  JavaScript
string/number truthiness (`x || d`) and first-occurrence `String.replace` are
embedded explicitly.
-/

namespace OpenLibrary

/-! ## JavaScript primitives used by the source -/

/-- JavaScript truthiness-based defaulting `v || d` for an optional string
field: `undefined` and the empty string both fall back to the default. -/
def jsOrStr (v : Option String) (d : String) : String :=
  match v with
  | some s => if s = "" then d else s
  | none => d

/-- JavaScript truthiness-based defaulting `v || d` for an optional numeric
field: `undefined` and `0` both fall back to the default. -/
def jsOrNum (v : Option Int) (d : Int) : Int :=
  match v with
  | some n => if n = 0 then d else n
  | none => d

/-- Whether `pat` occurs at the start of `l` (character-list level). -/
def isPrefixAt (pat : List Char) (l : List Char) : Bool :=
  match pat, l with
  | [], _ => true
  | _ :: _, [] => false
  | p :: ps, c :: cs => p = c && isPrefixAt ps cs

/-- Whether `pat` occurs anywhere in `l`. -/
def occursIn (pat : List Char) (l : List Char) : Bool :=
  match l with
  | [] => isPrefixAt pat []
  | _ :: cs => isPrefixAt pat l || occursIn pat cs

/-- One step of JavaScript `String.replace` with a string pattern: replace the
first (leftmost) occurrence of `pat` by `repl`, or leave the list unchanged
when `pat` does not occur. -/
def replaceFirstList (pat repl : List Char) (l : List Char) : List Char :=
  match l with
  | [] => if isPrefixAt pat [] then repl else []
  | c :: cs =>
    if isPrefixAt pat l then repl ++ l.drop pat.length
    else c :: replaceFirstList pat repl cs

/-- JavaScript `s.replace(pat, repl)` with a plain-string pattern: only the
first occurrence is replaced. -/
def jsReplaceFirst (s pat repl : String) : String :=
  String.mk (replaceFirstList pat.data repl.data s.data)

/-- JavaScript `s.replace(/^\//, '')`: strip a single leading slash. -/
def stripLeadingSlash (s : String) : String :=
  match s.data with
  | '/' :: rest => String.mk rest
  | _ => s

/-- Character class `[-\s]` of the ISBN-cleaning regex: hyphen or (ASCII and
Unicode) whitespace. -/
def isIsbnStripChar (c : Char) : Bool :=
  c = '-' || c = ' ' || c = '\t' || c = '\n' || c = '\r' ||
  c.toNat = 0x0b || c.toNat = 0x0c || c.toNat = 0xa0 || c.toNat = 0x1680 ||
  (0x2000 ≤ c.toNat && c.toNat ≤ 0x200a) || c.toNat = 0x2028 ||
  c.toNat = 0x2029 || c.toNat = 0x202f || c.toNat = 0x205f ||
  c.toNat = 0x3000 || c.toNat = 0xfeff

/-- JavaScript `isbn.replace(/[-\s]/g, '')`: drop every hyphen and whitespace
character. -/
def cleanIsbn (isbn : String) : String :=
  String.mk (isbn.data.filter (fun c => !isIsbnStripChar c))

/-- ASCII digit test, the `\d` of the validation regexes. -/
def isAsciiDigit (c : Char) : Bool :=
  '0' ≤ c && c ≤ '9'

/-- The ISBN format check `/^\d{10}$/.test(s) || /^\d{13}$/.test(s)`. -/
def isTenOrThirteenDigits (s : String) : Bool :=
  (s.data.length = 10 && s.data.all isAsciiDigit) ||
  (s.data.length = 13 && s.data.all isAsciiDigit)

/-- `cleanKey.startsWith('OL')`. -/
def startsWithOL (s : String) : Bool :=
  isPrefixAt ['O', 'L'] s.data

/-! ## Detail-lookup methods

Each method either throws (before any network call) a validation `Error`,
modelled as `Except.error` with the thrown message, or issues a GET on a
request path, modelled as `Except.ok` with that path. -/

/-- The key normalization of `getWork`:
`workKey.replace('/works/', '').replace(/^\//, '')`. -/
def cleanWorkKey (workKey : String) : String :=
  stripLeadingSlash (jsReplaceFirst workKey "/works/" "")

/-- The key normalization of `getEdition`:
`editionKey.replace('/books/', '').replace(/^\//, '')`. -/
def cleanEditionKey (editionKey : String) : String :=
  stripLeadingSlash (jsReplaceFirst editionKey "/books/" "")

/-- `getWork`, up to its network effect: validation error or GET path. -/
def getWork (workKey : String) : Except String String :=
  let cleanKey := cleanWorkKey workKey
  if startsWithOL cleanKey then Except.ok ("/works/" ++ cleanKey ++ ".json")
  else Except.error "Work key must start with \"OL\" (e.g., \"OL45804W\")"

/-- `getEdition`, up to its network effect: validation error or GET path. -/
def getEdition (editionKey : String) : Except String String :=
  let cleanKey := cleanEditionKey editionKey
  if startsWithOL cleanKey then Except.ok ("/books/" ++ cleanKey ++ ".json")
  else Except.error "Edition key must start with \"OL\" (e.g., \"OL7353617M\")"

/-- `getBookByISBN`, up to its network effect: validation error or GET path. -/
def getBookByISBN (isbn : String) : Except String String :=
  let cleanISBN := cleanIsbn isbn
  if isTenOrThirteenDigits cleanISBN then Except.ok ("/isbn/" ++ cleanISBN ++ ".json")
  else Except.error "ISBN must be 10 or 13 digits"

/-! ## Cover-URL formatters -/

/-- The size code `'S' | 'M' | 'L'`; the source defaults it to `'M'`. -/
inductive CoverSize
  | S
  | M
  | L
deriving DecidableEq

/-- The one-letter string of a size code. -/
def sizeStr : CoverSize → String
  | CoverSize.S => "S"
  | CoverSize.M => "M"
  | CoverSize.L => "L"

/-- `getCoverUrl(coverId, size)`; the source defaults `size` to `'M'`. -/
def getCoverUrl (coverId : Int) (size : CoverSize) : String :=
  "https://covers.openlibrary.org/b/id/" ++ toString coverId ++ "-" ++
    sizeStr size ++ ".jpg"

/-- `getCoverUrlByISBN(isbn, size)`; the source defaults `size` to `'M'`. -/
def getCoverUrlByISBN (isbn : String) (size : CoverSize) : String :=
  "https://covers.openlibrary.org/b/isbn/" ++ cleanIsbn isbn ++ "-" ++
    sizeStr size ++ ".jpg"

/-! ## Search parameters and query-string construction

`BookSearchParams` mirrors `src/types/index.ts`; optional fields are `Option`,
numbers are `Int`.  `searchBooks` appends pairs to a `URLSearchParams`
accumulator and serializes it; the model is the ordered pair list. -/

/-- `YearRange` from the types module. -/
structure YearRange where
  start : Int
  «end» : Int
deriving DecidableEq

/-- A field typed `number | YearRange`. -/
inductive YearOrRange
  | single (y : Int)
  | range (r : YearRange)
deriving DecidableEq

/-- `SortOption` from the types module. -/
inductive SortOption
  | random
  | new
  | old
  | rating
  | title
  | relevance
deriving DecidableEq

/-- `BookSearchParams` from the types module. -/
structure BookSearchParams where
  q : String
  title : Option String := none
  author : Option String := none
  isbn : Option String := none
  subject : Option String := none
  first_publish_year : Option YearOrRange := none
  publish_year : Option YearOrRange := none
  sort : Option SortOption := none
  limit : Option Int := none
  offset : Option Int := none
  fields : Option String := none
  lang : Option String := none

/-- One conditional append `if (params.x) queryParams.append(key, params.x)`:
the pair is appended only when the field is present and truthy (non-empty). -/
def optField (key : String) (v : Option String) : List (String × String) :=
  match v with
  | some s => if s = "" then [] else [(key, s)]
  | none => []

/-- The ordered key/value pairs `searchBooks` appends to its `URLSearchParams`.
The source reads only `q`, `title`, `author`, `isbn`, `subject`, `lang`,
`fields`, `limit` and `offset` from the params; `sort`, `first_publish_year`
and `publish_year` are never consulted. -/
def buildSearchQuery (params : BookSearchParams) : List (String × String) :=
  [("q", params.q)] ++
  optField "title" params.title ++
  optField "author" params.author ++
  optField "isbn" params.isbn ++
  optField "subject" params.subject ++
  optField "lang" params.lang ++
  optField "fields" params.fields ++
  [("limit", toString (jsOrNum params.limit 10)),
   ("offset", toString (jsOrNum params.offset 0)),
   ("format", "json")]

/-- The value an optional scalar search field contributes according to the
spec: its value exactly when it is present and non-empty, nothing otherwise.
Used to state the inclusion/omission contract of `searchBooks`. -/
def optPresent : Option String → Option String
  | some s => if s = "" then none else some s
  | none => none

/-! ## Error normalization

`handleError` inspects the caught axios error by shape: a populated
`error.response` yields an HTTP error carrying the response status; otherwise a
populated `error.request` yields a network error with no status; otherwise a
request-construction error with no status. -/

/-- The optional `error`/`message` fields of an upstream error body
(`error.response.data`). -/
structure UpstreamErrorBody where
  errorField : Option String := none
  messageField : Option String := none
deriving DecidableEq

/-- `error.response`: present exactly when the upstream answered. -/
structure AxiosResponseInfo where
  data : Option UpstreamErrorBody := none
  status : Nat
deriving DecidableEq

/-- The shape of a caught axios error: which of `response` and `request` are
populated, and the low-level `message`. -/
structure AxiosErrorShape where
  response : Option AxiosResponseInfo := none
  request : Bool := false
  message : String
deriving DecidableEq

/-- The `ApiError` produced by `handleError`. -/
structure ApiError where
  error : String
  message : Option String := none
  status : Option Nat := none
deriving DecidableEq

/-- `handleError` from the client. -/
def handleError (e : AxiosErrorShape) : ApiError :=
  match e.response with
  | some r =>
    { error := jsOrStr (r.data.bind (fun d => d.errorField)) "API Error",
      message := some (jsOrStr (r.data.bind (fun d => d.messageField)) e.message),
      status := some r.status }
  | none =>
    if e.request then
      { error := "Network Error",
        message := some "No response received from server",
        status := none }
    else
      { error := "Request Error",
        message := some e.message,
        status := none }

/-! ## Construction and configuration

JavaScript objects are references; the caller's `headers` object lives in a
heap of header maps and the constructor line `headers: config.headers || {}`
stores that reference (or a fresh empty object) without copying.  `getConfig`
returns the spread `{ ...this.config }`: a new top-level record holding the
same `headers` reference. -/

/-- A JavaScript headers object: an ordered map of header name to value. -/
abbrev HeaderMap := List (String × String)

/-- The heap of live headers objects; a reference is an index into it. -/
abbrev Heap := List HeaderMap

/-- Dereference a headers object. -/
def readHeap (h : Heap) (r : Nat) : HeaderMap :=
  (h.get? r).getD []

/-- Mutate the headers object behind reference `r` in place. -/
def writeHeap (h : Heap) (r : Nat) (v : HeaderMap) : Heap :=
  h.set r v

/-- `OpenLibraryClientConfig` as passed by the caller: every field optional,
`headers` a reference to a caller-owned object. -/
structure ClientConfigArg where
  baseURL : Option String := none
  timeout : Option Int := none
  headers : Option Nat := none

/-- The `Required<OpenLibraryClientConfig>` record the constructor stores in
`this.config`. -/
structure StoredConfig where
  baseURL : String
  timeout : Int
  headersRef : Nat
deriving DecidableEq

/-- The constructor's merge
`{ baseURL: config.baseURL || default, timeout: config.timeout || 10000,
headers: config.headers || {} }`: field values are copied, but a present
`headers` reference is stored as-is; only an absent one allocates a fresh
empty object. -/
def constructConfig (c : ClientConfigArg) (h : Heap) : StoredConfig × Heap :=
  match c.headers with
  | some r =>
    ({ baseURL := jsOrStr c.baseURL "https://openlibrary.org",
       timeout := jsOrNum c.timeout 10000,
       headersRef := r }, h)
  | none =>
    ({ baseURL := jsOrStr c.baseURL "https://openlibrary.org",
       timeout := jsOrNum c.timeout 10000,
       headersRef := h.length }, h ++ [[]])

/-- `getConfig(): return { ...this.config }` — a shallow copy: fresh top-level
record, same `headers` reference. -/
def getConfig (s : StoredConfig) : StoredConfig :=
  { baseURL := s.baseURL, timeout := s.timeout, headersRef := s.headersRef }

/-- What a caller of `getConfig` can observe once the `headers` reference is
dereferenced against the current heap. -/
structure ResolvedConfig where
  baseURL : String
  timeout : Int
  headers : HeaderMap
deriving DecidableEq

/-- Dereference the configuration returned by `getConfig` against a heap. -/
def resolveConfig (s : StoredConfig) (h : Heap) : ResolvedConfig :=
  { baseURL := s.baseURL, timeout := s.timeout, headers := readHeap h s.headersRef }

/-! ## Helper lemmas on the string primitives -/

theorem data_append (a b : String) : (a ++ b).data = a.data ++ b.data := rfl

theorem mk_data (s : String) : String.mk s.data = s := rfl

theorem isPrefixAt_append (p l : List Char) : isPrefixAt p (p ++ l) = true := by
  induction p with
  | nil => rfl
  | cons c cs ih => simp [isPrefixAt, ih]

theorem replaceFirstList_of_isPrefixAt {pat : List Char} (repl : List Char)
    {l : List Char} (h : isPrefixAt pat l = true) :
    replaceFirstList pat repl l = repl ++ l.drop pat.length := by
  cases l with
  | nil =>
    have hnil : pat = [] := by
      cases pat with
      | nil => rfl
      | cons c cs => simp [isPrefixAt] at h
    subst hnil
    simp [replaceFirstList, isPrefixAt]
  | cons c cs => simp [replaceFirstList, h]

theorem replaceFirstList_of_not_occurs {pat : List Char} (repl : List Char)
    {l : List Char} (h : occursIn pat l = false) :
    replaceFirstList pat repl l = l := by
  induction l with
  | nil =>
    have : isPrefixAt pat [] = false := by simpa [occursIn] using h
    simp [replaceFirstList, this]
  | cons c cs ih =>
    have h1 : isPrefixAt pat (c :: cs) = false := by
      have := h
      simp [occursIn] at this
      exact this.1
    have h2 : occursIn pat cs = false := by
      have := h
      simp [occursIn] at this
      exact this.2
    simp [replaceFirstList, h1, ih h2]

theorem startsWithOL_shape {s : String} (h : startsWithOL s = true) :
    ∃ rest, s.data = 'O' :: 'L' :: rest := by
  unfold startsWithOL at h
  cases hd : s.data with
  | nil => rw [hd] at h; simp [isPrefixAt] at h
  | cons c cs =>
    cases hcs : cs with
    | nil => rw [hd, hcs] at h; simp [isPrefixAt] at h
    | cons c2 cs2 =>
      rw [hd, hcs] at h
      simp [isPrefixAt] at h
      exact ⟨cs2, by rw [← h.1, ← h.2]⟩

theorem drop_length_append (a b : List Char) : (a ++ b).drop a.length = b := by
  induction a with
  | nil => rfl
  | cons c cs ih => simp [ih]

theorem cleanWorkKey_forms (id : String) (hOL : startsWithOL id = true)
    (hno : occursIn (String.data "/works/") id.data = false) :
    cleanWorkKey ("/works/" ++ id) = id ∧ cleanWorkKey ("/" ++ id) = id ∧
      cleanWorkKey id = id := by
  obtain ⟨rest, hdata⟩ := startsWithOL_shape hOL
  have hid : id = String.mk ('O' :: 'L' :: rest) := by rw [← hdata, mk_data]
  subst hid
  refine ⟨?_, ?_, ?_⟩
  · show stripLeadingSlash (String.mk (replaceFirstList (String.data "/works/") []
      (String.data ("/works/" ++ String.mk ('O' :: 'L' :: rest))))) = _
    rw [data_append]
    rw [replaceFirstList_of_isPrefixAt [] (isPrefixAt_append _ _)]
    rw [List.nil_append, drop_length_append]
    rfl
  · show stripLeadingSlash (String.mk (replaceFirstList (String.data "/works/") []
      (String.data ("/" ++ String.mk ('O' :: 'L' :: rest))))) = _
    rw [data_append]
    have hocc : occursIn (String.data "/works/")
        (String.data "/" ++ ('O' :: 'L' :: rest)) = false := by
      show (isPrefixAt (String.data "/works/") ('/' :: 'O' :: 'L' :: rest) ||
        occursIn (String.data "/works/") ('O' :: 'L' :: rest)) = false
      rw [hdata] at hno
      rw [hno]
      rfl
    rw [replaceFirstList_of_not_occurs [] hocc]
    rfl
  · show stripLeadingSlash (String.mk (replaceFirstList (String.data "/works/") []
      (String.data (String.mk ('O' :: 'L' :: rest))))) = _
    rw [hdata] at hno
    rw [replaceFirstList_of_not_occurs [] hno]
    rfl

/-- C1 counterexample: `getWork("works/OL45804W")` does not normalize to the
request path `/works/OL45804W.json`; since `"works/OL45804W"` contains no
occurrence of the pattern `"/works/"`, the first `replace` leaves it
unchanged, the cleaned key starts with `w`, and the call is rejected with the
validation error, unlike `getWork("/works/OL45804W")`. -/
theorem getWork_worksSlashless_errors :
    getWork "works/OL45804W" =
      Except.error "Work key must start with \"OL\" (e.g., \"OL45804W\")" ∧
    getWork "/works/OL45804W" = Except.ok "/works/OL45804W.json" :=
  ⟨rfl, rfl⟩

/-- C1 (amended): for every identifier that starts with the marker `OL` and
contains no occurrence of `"/works/"`, the forms with the `/works/` path
prefix, with a bare leading slash, and bare all normalize to the same
identifier and issue a GET on the same request path; the form
`works/OL45804W` (prefix without its leading slash) is instead rejected with
a validation error, as the counterexample shows. -/
theorem getWork_keyForms_agree (id : String) (hOL : startsWithOL id = true)
    (hno : occursIn (String.data "/works/") id.data = false) :
    getWork ("/works/" ++ id) = Except.ok ("/works/" ++ id ++ ".json") ∧
    getWork ("/" ++ id) = Except.ok ("/works/" ++ id ++ ".json") ∧
    getWork id = Except.ok ("/works/" ++ id ++ ".json") := by
  obtain ⟨h1, h2, h3⟩ := cleanWorkKey_forms id hOL hno
  refine ⟨?_, ?_, ?_⟩ <;> simp [getWork, cleanWorkKey] at h1 h2 h3 ⊢ <;>
    simp [h1, h2, h3, hOL]

/-- C1 witness: the three accepted forms of the spec example all issue
`GET /works/OL45804W.json`. -/
theorem getWork_keyForms_agree_witness :
    getWork "/works/OL45804W" = Except.ok "/works/OL45804W.json" ∧
    getWork "/OL45804W" = Except.ok "/works/OL45804W.json" ∧
    getWork "OL45804W" = Except.ok "/works/OL45804W.json" := by
  have h := getWork_keyForms_agree "OL45804W" (by decide) (by decide)
  exact ⟨h.1, h.2.1, h.2.2⟩

/-- C6: for every work key and edition key whose normalized identifier (after
stripping the known path prefix and a single leading separator) does not start
with the marker `OL`, `getWork` and `getEdition` fail with the validation
error and issue no network call (no request path is produced). -/
theorem getWork_getEdition_reject_nonOL (wk ek : String)
    (hw : startsWithOL (cleanWorkKey wk) = false)
    (he : startsWithOL (cleanEditionKey ek) = false) :
    getWork wk =
      Except.error "Work key must start with \"OL\" (e.g., \"OL45804W\")" ∧
    getEdition ek =
      Except.error "Edition key must start with \"OL\" (e.g., \"OL7353617M\")" := by
  constructor
  · simp [getWork, hw]
  · simp [getEdition, he]

/-- C6 witness: the spec example `getWork("XX123")` (and the edition analogue)
is rejected with the validation error. -/
theorem getWork_getEdition_reject_nonOL_witness :
    getWork "XX123" =
      Except.error "Work key must start with \"OL\" (e.g., \"OL45804W\")" ∧
    getEdition "XX123" =
      Except.error "Edition key must start with \"OL\" (e.g., \"OL7353617M\")" :=
  getWork_getEdition_reject_nonOL "XX123" "XX123" (by decide) (by decide)

/-- C5: `getBookByISBN` first strips whitespace and hyphens; when the cleaned
value is exactly 10 or exactly 13 digits it issues `GET /isbn/CLEANED.json`,
otherwise it fails with the validation error before any network call; no
checksum validation is performed (the checksum-invalid `1234567890` is still
accepted). -/
theorem getBookByISBN_format_rule (isbn : String) :
    (isTenOrThirteenDigits (cleanIsbn isbn) = true →
      getBookByISBN isbn = Except.ok ("/isbn/" ++ cleanIsbn isbn ++ ".json")) ∧
    (isTenOrThirteenDigits (cleanIsbn isbn) = false →
      getBookByISBN isbn = Except.error "ISBN must be 10 or 13 digits") ∧
    getBookByISBN "1234567890" = Except.ok "/isbn/1234567890.json" := by
  refine ⟨fun h => ?_, fun h => ?_, rfl⟩
  · simp [getBookByISBN, h]
  · simp [getBookByISBN, h]

/-- C5 witness: the spec examples — `978-0-547-92822-7` cleans to
`9780547928227` and issues `GET /isbn/9780547928227.json`; `12345` is
rejected. -/
theorem getBookByISBN_format_rule_witness :
    getBookByISBN "978-0-547-92822-7" = Except.ok "/isbn/9780547928227.json" ∧
    getBookByISBN "12345" = Except.error "ISBN must be 10 or 13 digits" :=
  ⟨(getBookByISBN_format_rule "978-0-547-92822-7").1 (by decide),
   (getBookByISBN_format_rule "12345").2.1 (by decide)⟩

/-- C8: `getCoverUrlByISBN` is a pure total formatter: for every input string
(valid-looking or not) and size, it strips whitespace/hyphens with the same
`cleanIsbn` used by `getBookByISBN`, applies no digit-count validation, and
returns the URL under the `/b/isbn/` path; with the default size `M` the spec
example yields the medium-size URL. -/
theorem getCoverUrlByISBN_formats (isbn : String) (size : CoverSize) :
    getCoverUrlByISBN isbn size =
      "https://covers.openlibrary.org/b/isbn/" ++ cleanIsbn isbn ++ "-" ++
        sizeStr size ++ ".jpg" ∧
    getCoverUrlByISBN "9780547928227" CoverSize.M =
      "https://covers.openlibrary.org/b/isbn/9780547928227-M.jpg" ∧
    getCoverUrlByISBN "not-an-isbn" CoverSize.M =
      "https://covers.openlibrary.org/b/isbn/notanisbn-M.jpg" :=
  ⟨rfl, rfl, rfl⟩

/-- C9: `getCoverUrl` is a pure total formatter embedding the numeric cover id
(whatever its sign or magnitude) and the size code into the `/b/id/` URL; the
spec example `getCoverUrl(8739161, 'L')` yields exactly the stated URL, and a
negative id is also accepted. -/
theorem getCoverUrl_formats (coverId : Int) (size : CoverSize) :
    getCoverUrl coverId size =
      "https://covers.openlibrary.org/b/id/" ++ toString coverId ++ "-" ++
        sizeStr size ++ ".jpg" ∧
    getCoverUrl 8739161 CoverSize.L =
      "https://covers.openlibrary.org/b/id/8739161-L.jpg" ∧
    getCoverUrl (-1) CoverSize.M =
      "https://covers.openlibrary.org/b/id/-1-M.jpg" :=
  ⟨rfl, by decide, by decide⟩

/-! ## Lookup lemmas for the serialized search query -/

theorem lookup_cons_self {v : String} {rest : List (String × String)}
    {k : String} : List.lookup k ((k, v) :: rest) = some v := by
  simp [List.lookup]

theorem lookup_cons_of_ne {v : String} {rest : List (String × String)}
    {k k' : String} (h : (k == k') = false) :
    List.lookup k ((k', v) :: rest) = List.lookup k rest := by
  simp [List.lookup, h]

theorem lookup_optField_skip {k key : String} (h : (k == key) = false)
    (v : Option String) (rest : List (String × String)) :
    List.lookup k (optField key v ++ rest) = List.lookup k rest := by
  cases v with
  | none => rfl
  | some s =>
    by_cases hs : s = ""
    · simp [optField, hs]
    · simp [optField, hs, List.lookup, h]

theorem lookup_optField_self (key : String) (v : Option String)
    (rest : List (String × String)) (hrest : List.lookup key rest = none) :
    List.lookup key (optField key v ++ rest) = optPresent v := by
  cases v with
  | none => simpa [optField, optPresent] using hrest
  | some s =>
    by_cases hs : s = ""
    · simpa [optField, optPresent, hs] using hrest
    · simp [optField, optPresent, hs, List.lookup]

/-- The serialized pair list, re-associated so that every `optField` segment
heads its own append. -/
theorem bsq_shape (p : BookSearchParams) :
    buildSearchQuery p =
      ("q", p.q) ::
        (optField "title" p.title ++
          (optField "author" p.author ++
            (optField "isbn" p.isbn ++
              (optField "subject" p.subject ++
                (optField "lang" p.lang ++
                  (optField "fields" p.fields ++
                    [("limit", toString (jsOrNum p.limit 10)),
                     ("offset", toString (jsOrNum p.offset 0)),
                     ("format", "json")])))))) := by
  simp [buildSearchQuery]

theorem lookup_bsq_q (p : BookSearchParams) :
    List.lookup "q" (buildSearchQuery p) = some p.q := by
  rw [bsq_shape]; exact lookup_cons_self

theorem lookup_bsq_limit (p : BookSearchParams) :
    List.lookup "limit" (buildSearchQuery p) =
      some (toString (jsOrNum p.limit 10)) := by
  rw [bsq_shape, lookup_cons_of_ne (by decide),
    lookup_optField_skip (by decide), lookup_optField_skip (by decide),
    lookup_optField_skip (by decide), lookup_optField_skip (by decide),
    lookup_optField_skip (by decide), lookup_optField_skip (by decide)]
  exact lookup_cons_self

theorem lookup_bsq_offset (p : BookSearchParams) :
    List.lookup "offset" (buildSearchQuery p) =
      some (toString (jsOrNum p.offset 0)) := by
  rw [bsq_shape, lookup_cons_of_ne (by decide),
    lookup_optField_skip (by decide), lookup_optField_skip (by decide),
    lookup_optField_skip (by decide), lookup_optField_skip (by decide),
    lookup_optField_skip (by decide), lookup_optField_skip (by decide),
    lookup_cons_of_ne (by decide)]
  exact lookup_cons_self

theorem lookup_bsq_format (p : BookSearchParams) :
    List.lookup "format" (buildSearchQuery p) = some "json" := by
  rw [bsq_shape, lookup_cons_of_ne (by decide),
    lookup_optField_skip (by decide), lookup_optField_skip (by decide),
    lookup_optField_skip (by decide), lookup_optField_skip (by decide),
    lookup_optField_skip (by decide), lookup_optField_skip (by decide),
    lookup_cons_of_ne (by decide), lookup_cons_of_ne (by decide)]
  exact lookup_cons_self

theorem lookup_bsq_none (p : BookSearchParams) (k : String)
    (h1 : (k == "q") = false) (h2 : (k == "title") = false)
    (h3 : (k == "author") = false) (h4 : (k == "isbn") = false)
    (h5 : (k == "subject") = false) (h6 : (k == "lang") = false)
    (h7 : (k == "fields") = false) (h8 : (k == "limit") = false)
    (h9 : (k == "offset") = false) (h10 : (k == "format") = false) :
    List.lookup k (buildSearchQuery p) = none := by
  rw [bsq_shape, lookup_cons_of_ne h1, lookup_optField_skip h2,
    lookup_optField_skip h3, lookup_optField_skip h4, lookup_optField_skip h5,
    lookup_optField_skip h6, lookup_optField_skip h7, lookup_cons_of_ne h8,
    lookup_cons_of_ne h9, lookup_cons_of_ne h10]
  rfl

theorem lookup_bsq_title (p : BookSearchParams) :
    List.lookup "title" (buildSearchQuery p) = optPresent p.title := by
  rw [bsq_shape, lookup_cons_of_ne (by decide)]
  refine lookup_optField_self _ _ _ ?_
  rw [lookup_optField_skip (by decide), lookup_optField_skip (by decide),
    lookup_optField_skip (by decide), lookup_optField_skip (by decide),
    lookup_optField_skip (by decide), lookup_cons_of_ne (by decide),
    lookup_cons_of_ne (by decide), lookup_cons_of_ne (by decide)]
  rfl

theorem lookup_bsq_author (p : BookSearchParams) :
    List.lookup "author" (buildSearchQuery p) = optPresent p.author := by
  rw [bsq_shape, lookup_cons_of_ne (by decide),
    lookup_optField_skip (by decide)]
  refine lookup_optField_self _ _ _ ?_
  rw [lookup_optField_skip (by decide), lookup_optField_skip (by decide),
    lookup_optField_skip (by decide), lookup_optField_skip (by decide),
    lookup_cons_of_ne (by decide), lookup_cons_of_ne (by decide),
    lookup_cons_of_ne (by decide)]
  rfl

theorem lookup_bsq_isbn (p : BookSearchParams) :
    List.lookup "isbn" (buildSearchQuery p) = optPresent p.isbn := by
  rw [bsq_shape, lookup_cons_of_ne (by decide),
    lookup_optField_skip (by decide), lookup_optField_skip (by decide)]
  refine lookup_optField_self _ _ _ ?_
  rw [lookup_optField_skip (by decide), lookup_optField_skip (by decide),
    lookup_optField_skip (by decide), lookup_cons_of_ne (by decide),
    lookup_cons_of_ne (by decide), lookup_cons_of_ne (by decide)]
  rfl

theorem lookup_bsq_subject (p : BookSearchParams) :
    List.lookup "subject" (buildSearchQuery p) = optPresent p.subject := by
  rw [bsq_shape, lookup_cons_of_ne (by decide),
    lookup_optField_skip (by decide), lookup_optField_skip (by decide),
    lookup_optField_skip (by decide)]
  refine lookup_optField_self _ _ _ ?_
  rw [lookup_optField_skip (by decide), lookup_optField_skip (by decide),
    lookup_cons_of_ne (by decide), lookup_cons_of_ne (by decide),
    lookup_cons_of_ne (by decide)]
  rfl

theorem lookup_bsq_lang (p : BookSearchParams) :
    List.lookup "lang" (buildSearchQuery p) = optPresent p.lang := by
  rw [bsq_shape, lookup_cons_of_ne (by decide),
    lookup_optField_skip (by decide), lookup_optField_skip (by decide),
    lookup_optField_skip (by decide), lookup_optField_skip (by decide)]
  refine lookup_optField_self _ _ _ ?_
  rw [lookup_optField_skip (by decide), lookup_cons_of_ne (by decide),
    lookup_cons_of_ne (by decide), lookup_cons_of_ne (by decide)]
  rfl

theorem lookup_bsq_fields (p : BookSearchParams) :
    List.lookup "fields" (buildSearchQuery p) = optPresent p.fields := by
  rw [bsq_shape, lookup_cons_of_ne (by decide),
    lookup_optField_skip (by decide), lookup_optField_skip (by decide),
    lookup_optField_skip (by decide), lookup_optField_skip (by decide),
    lookup_optField_skip (by decide)]
  refine lookup_optField_self _ _ _ ?_
  rw [lookup_cons_of_ne (by decide), lookup_cons_of_ne (by decide),
    lookup_cons_of_ne (by decide)]
  rfl

theorem jsOrNum_of_ne_zero {o : Option Int} (d : Int) (h : o ≠ some 0) :
    jsOrNum o d = o.getD d := by
  cases o with
  | none => rfl
  | some n =>
    have hn : n ≠ 0 := fun hn => h (by rw [hn])
    simp [jsOrNum, hn]

theorem jsOrNum_zero_default (o : Option Int) : jsOrNum o 0 = o.getD 0 := by
  cases o with
  | none => rfl
  | some n => by_cases hn : n = 0 <;> simp [jsOrNum, hn]

/-- C3 counterexample: with `limit` explicitly supplied as `0`, the serialized
query carries `limit=10`, not the provided value `limit=0`, so the
default-or-provided contract fails at this input. -/
theorem searchBooks_limit_zero_not_provided :
    List.lookup "limit" (buildSearchQuery { q := "a", limit := some 0 }) =
      some "10" ∧
    List.lookup "limit" (buildSearchQuery { q := "a", limit := some 0 }) ≠
      some "0" := by decide

/-- C3 (amended): for every search query whose `limit`, when supplied, is not
the (falsy) value `0`, the serialized query includes exactly `q`,
`format=json`, and the default-or-provided `limit` and `offset` (`limit=10`
and `offset=0` when omitted), includes each optional scalar field (`title`,
`author`, `isbn`, `subject`, `lang`, `fields`) exactly when it is present and
non-empty, and omits every optional scalar field not supplied; a supplied
`limit` of `0` is instead replaced by the default `10`, as the counterexample
shows. -/
theorem searchBooks_query_contents (p : BookSearchParams)
    (hl : p.limit ≠ some 0) :
    List.lookup "q" (buildSearchQuery p) = some p.q ∧
    List.lookup "format" (buildSearchQuery p) = some "json" ∧
    List.lookup "limit" (buildSearchQuery p) =
      some (toString (p.limit.getD 10)) ∧
    List.lookup "offset" (buildSearchQuery p) =
      some (toString (p.offset.getD 0)) ∧
    List.lookup "title" (buildSearchQuery p) = optPresent p.title ∧
    List.lookup "author" (buildSearchQuery p) = optPresent p.author ∧
    List.lookup "isbn" (buildSearchQuery p) = optPresent p.isbn ∧
    List.lookup "subject" (buildSearchQuery p) = optPresent p.subject ∧
    List.lookup "lang" (buildSearchQuery p) = optPresent p.lang ∧
    List.lookup "fields" (buildSearchQuery p) = optPresent p.fields := by
  refine ⟨lookup_bsq_q p, lookup_bsq_format p, ?_, ?_, lookup_bsq_title p,
    lookup_bsq_author p, lookup_bsq_isbn p, lookup_bsq_subject p,
    lookup_bsq_lang p, lookup_bsq_fields p⟩
  · rw [lookup_bsq_limit, jsOrNum_of_ne_zero 10 hl]
  · rw [lookup_bsq_offset, jsOrNum_zero_default]

/-- C3 witness: a concrete query with `q`, a title, and `limit = 5` serializes
`q`, `format=json`, `limit=5`, `offset=0`, the supplied title, and omits the
unsupplied `author`. -/
theorem searchBooks_query_contents_witness :
    List.lookup "q"
      (buildSearchQuery { q := "hello", title := some "dune", limit := some 5 })
      = some "hello" ∧
    List.lookup "format"
      (buildSearchQuery { q := "hello", title := some "dune", limit := some 5 })
      = some "json" ∧
    List.lookup "limit"
      (buildSearchQuery { q := "hello", title := some "dune", limit := some 5 })
      = some "5" ∧
    List.lookup "offset"
      (buildSearchQuery { q := "hello", title := some "dune", limit := some 5 })
      = some "0" ∧
    List.lookup "title"
      (buildSearchQuery { q := "hello", title := some "dune", limit := some 5 })
      = some "dune" ∧
    List.lookup "author"
      (buildSearchQuery { q := "hello", title := some "dune", limit := some 5 })
      = none := by
  have h := searchBooks_query_contents
    { q := "hello", title := some "dune", limit := some 5 } (by decide)
  exact ⟨h.1, h.2.1, h.2.2.1.trans (by decide), h.2.2.2.1.trans (by decide),
    h.2.2.2.2.1.trans (by decide), h.2.2.2.2.2.1.trans (by decide)⟩

/-- C10: a caller-supplied `limit = 0` is falsy under the `params.limit || 10`
defaulting, so the query serializes `limit=10` — identical to an absent limit
and a zero-result page cannot be requested — whereas a caller-supplied
`offset = 0` serializes as `offset=0`. -/
theorem searchBooks_zero_limit_vs_zero_offset (p : BookSearchParams) :
    List.lookup "limit" (buildSearchQuery { p with limit := some 0 }) =
      some "10" ∧
    List.lookup "offset" (buildSearchQuery { p with offset := some 0 }) =
      some "0" := by
  constructor
  · rw [lookup_bsq_limit]; rfl
  · rw [lookup_bsq_offset]; rfl

/-- C4 (code bug): `searchBooks` never serializes `sort`,
`first_publish_year` or `publish_year` — for every parameter object the
serialized query contains none of these keys, and on the concrete failing
input the whole query collapses to `q`, `limit`, `offset`, `format` —
although the parameter types document them as sort/filter inputs. -/
theorem searchBooks_ignores_sort_and_years (p : BookSearchParams) :
    List.lookup "sort" (buildSearchQuery p) = none ∧
    List.lookup "first_publish_year" (buildSearchQuery p) = none ∧
    List.lookup "publish_year" (buildSearchQuery p) = none ∧
    buildSearchQuery { q := "tolkien", sort := some SortOption.new, first_publish_year := some (YearOrRange.single 1990), publish_year := some (YearOrRange.range ⟨2000, 2010⟩) } =
      [("q", "tolkien"), ("limit", "10"), ("offset", "0"), ("format", "json")]
    := by
  refine ⟨?_, ?_, ?_, by decide⟩ <;>
    exact lookup_bsq_none p _ (by decide) (by decide) (by decide) (by decide)
      (by decide) (by decide) (by decide) (by decide) (by decide) (by decide)

/-- C7: `handleError` maps a failure deterministically by cause — a transport
failure where the request was sent but no response arrived surfaces as the
`Network Error` shape with no HTTP status field, and an upstream non-success
response surfaces as an error carrying exactly that numeric status — so every
failure becomes the same `ApiError` structure. -/
theorem handleError_by_cause (e : AxiosErrorShape) :
    (e.response = none → e.request = true →
      handleError e =
        { error := "Network Error",
          message := some "No response received from server",
          status := none }) ∧
    (∀ r, e.response = some r → (handleError e).status = some r.status) := by
  constructor
  · intro hresp hreq
    simp [handleError, hresp, hreq]
  · intro r hresp
    simp [handleError, hresp]

/-- C7 witness: a connection-refused transport failure yields the
`Network Error` shape without a status, and an upstream 404 yields an error
with status 404. -/
theorem handleError_by_cause_witness :
    handleError
        { response := none, request := true,
          message := "connect ECONNREFUSED" } =
      { error := "Network Error",
        message := some "No response received from server", status := none } ∧
    (handleError
        { response := some { data := none, status := 404 }, request := true,
          message := "Request failed with status code 404" }).status =
      some 404 :=
  ⟨(handleError_by_cause _).1 rfl rfl, (handleError_by_cause _).2 _ rfl⟩

theorem readHeap_writeHeap_self (h : Heap) (r : Nat) (v : HeaderMap)
    (hlt : r < h.length) : readHeap (writeHeap h r v) r = v := by
  induction h generalizing r with
  | nil => simp at hlt
  | cons a as ih =>
    cases r with
    | zero => rfl
    | succ n => exact ih n (Nat.lt_of_succ_lt_succ hlt)

/-- C2 counterexample: the constructor stores the caller's `headers` object by
reference, so mutating that nested mapping after construction changes what
`getConfig()` resolves to — the configuration returned by `getConfig` is not
insulated from external mutation of the nested headers mapping. -/
theorem getConfig_headers_alias_mutation :
    resolveConfig (getConfig (constructConfig { headers := some 0 } [[]]).1)
        (writeHeap (constructConfig { headers := some 0 } [[]]).2 0
          [("X-Custom", "1")]) ≠
      resolveConfig (getConfig (constructConfig { headers := some 0 } [[]]).1)
        (constructConfig { headers := some 0 } [[]]).2 ∧
    (resolveConfig (getConfig (constructConfig { headers := some 0 } [[]]).1)
        (writeHeap (constructConfig { headers := some 0 } [[]]).2 0
          [("X-Custom", "1")])).headers = [("X-Custom", "1")] := by decide

/-- C2 (amended): `getConfig()` returns the configuration merged at
construction time — its `baseURL` and `timeout` are value copies fixed by the
constructor and unaffected by anything the caller later does — but the
constructor stores a caller-supplied nested `headers` object by reference
without copying, so a later mutation of that nested mapping IS reflected in
what `getConfig()` resolves to, as the counterexample shows. -/
theorem getConfig_merged_and_alias (c : ClientConfigArg) (h : Heap) (r : Nat)
    (v : HeaderMap) (hr : c.headers = some r) (hlt : r < h.length) :
    (getConfig (constructConfig c h).1).baseURL =
      jsOrStr c.baseURL "https://openlibrary.org" ∧
    (getConfig (constructConfig c h).1).timeout = jsOrNum c.timeout 10000 ∧
    (resolveConfig (getConfig (constructConfig c h).1)
        (writeHeap (constructConfig c h).2 r v)).headers = v := by
  have hcc : constructConfig c h =
      ({ baseURL := jsOrStr c.baseURL "https://openlibrary.org",
         timeout := jsOrNum c.timeout 10000, headersRef := r }, h) := by
    simp [constructConfig, hr]
  refine ⟨?_, ?_, ?_⟩
  · rw [hcc]; rfl
  · rw [hcc]; rfl
  · rw [hcc]
    exact readHeap_writeHeap_self h r v hlt

/-- C2 witness: a client constructed with a caller-owned headers object keeps
the default base URL as a value, while a post-construction write to that
headers object shows through `getConfig`. -/
theorem getConfig_merged_and_alias_witness :
    (getConfig
        (constructConfig { headers := some 0 } [[("A", "b")]]).1).baseURL =
      "https://openlibrary.org" ∧
    (resolveConfig
        (getConfig (constructConfig { headers := some 0 } [[("A", "b")]]).1)
        (writeHeap (constructConfig { headers := some 0 } [[("A", "b")]]).2 0
          [("X", "y")])).headers = [("X", "y")] := by
  have h := getConfig_merged_and_alias { headers := some 0 } [[("A", "b")]] 0
    [("X", "y")] rfl (by decide)
  exact ⟨h.1.trans (by decide), h.2.2⟩

end OpenLibrary
